import Mathlib

/-!
# Verification of the FindMyBook cover-resolution and cache engine

Shallow embedding of `src/main.py` (class `OpenLibraryPlugin`).  Filesystem
state is an association list from path to file size; the network is an
oracle `String → Option Nat` giving the byte length of a successful fetch
(`none` models any exception: timeout, DNS failure, non-2xx).  Python string
operations used by the code (`str.strip`, `str.replace` with a one-character
or fixed pattern, truthiness of optional values) are given explicit,
kernel-computable counterparts below.
-/

set_option autoImplicit false

namespace FindMyBook

/-- Python truthiness of an optional string: `None` and `""` are falsy. -/
def optTruthy : Option String → Bool
  | none => false
  | some s => !(s == "")

/-- Python `a or b` on optional strings: `a` when truthy, else `b`. -/
def pyOr (a b : Option String) : Option String :=
  if optTruthy a then a else b

/-- Python `str(x)` on an optional string: `str(None) = "None"`. -/
def pyStr : Option String → String
  | none => "None"
  | some s => s

/-- Whitespace characters removed by Python `str.strip()` (ASCII subset). -/
def isPySpace (c : Char) : Bool :=
  c == ' ' || c == '\t' || c == '\n' || c == '\r' || c == '\x0b' || c == '\x0c'

/-- Python `s.strip()`: drop leading and trailing whitespace. -/
def pyStrip (s : String) : String :=
  ⟨((s.data.dropWhile isPySpace).reverse.dropWhile isPySpace).reverse⟩

/-- Python `s.startswith("isbn_")` (main.py lines 107 and 116). -/
def startsWithIsbn (s : String) : Bool :=
  s.data.take 5 == ['i', 's', 'b', 'n', '_']

/-- Python `s.replace("isbn_", "")` on the character list: every
non-overlapping occurrence of the pattern is removed, left to right
(main.py line 117). -/
def stripIsbnAux : List Char → List Char
  | 'i' :: 's' :: 'b' :: 'n' :: '_' :: rest => stripIsbnAux rest
  | c :: rest => c :: stripIsbnAux rest
  | [] => []

/-- Python `str(cover_id).replace("isbn_", "")` (main.py line 117). -/
def stripIsbn (s : String) : String :=
  ⟨stripIsbnAux s.data⟩

/-- Python `s.replace("/", "_")` (main.py line 143); a one-character
pattern makes `str.replace` a character-wise substitution. -/
def sanitize (s : String) : String :=
  ⟨s.data.map (fun c => if c == '/' then '_' else c)⟩

/-! ## Plugin path constants (main.py lines 24-28)

`plugin_dir` is the directory containing the plugin on disk, an
environment-dependent absolute path; it is modelled as a fixed string, and
`os.path.join` as `/`-separated concatenation. -/

def plugin_dir : String := "plugin"

def cache_dir : String := plugin_dir ++ "/img_cache"

def app_icon : String := plugin_dir ++ "/app.png"

def default_book_icon : String := plugin_dir ++ "/book.png"

/-! ## Cache directory state -/

/-- The cache directory contents: an association of file path to size in
bytes.  `os.path.exists`/`os.path.getsize` read it, `os.remove` deletes an
entry, writing a downloaded cover inserts one. -/
abbrev FS := List (String × Nat)

/-- `os.path.exists` + `os.path.getsize`: the size of the file at `p`. -/
def FS.lookup (fs : FS) (p : String) : Option Nat :=
  List.lookup p fs

/-- `os.remove p`. -/
def FS.remove (fs : FS) (p : String) : FS :=
  fs.filter (fun e => !(e.1 == p))

/-- `open(p, "wb").write(content)`: overwrites any prior content. -/
def FS.write (fs : FS) (p : String) (n : Nat) : FS :=
  (p, n) :: FS.remove fs p

/-! ## Cover URL candidates and the download loop
(`OpenLibraryPlugin.download_cover`, main.py lines 102-136) -/

/-- The ordered candidate URL list built by `download_cover`
(main.py lines 104-118): method 1 appends the two direct-id URLs when
`cover_id` is truthy and not `isbn_`-prefixed, method 2 appends the
ISBN-keyed URL when `isbn` is truthy, method 3 appends the ISBN-keyed URL
recovered from an `isbn_`-prefixed `cover_id`. -/
def urls_to_try (cover_id isbn : Option String) : List String :=
  (if optTruthy cover_id && !startsWithIsbn (pyStr cover_id) then
    ["https://covers.openlibrary.org/b/id/" ++ pyStr cover_id ++ "-M.jpg",
     "https://covers.openlibrary.org/b/id/" ++ pyStr cover_id ++ "-L.jpg"]
   else [])
  ++ (if optTruthy isbn then
    ["https://covers.openlibrary.org/b/isbn/" ++ pyStr isbn ++ "-M.jpg"]
   else [])
  ++ (if optTruthy cover_id && startsWithIsbn (pyStr cover_id) then
    ["https://covers.openlibrary.org/b/isbn/" ++ stripIsbn (pyStr cover_id) ++ "-M.jpg"]
   else [])

/-- The `for url in urls_to_try` loop (main.py lines 120-134): fetch each
URL in order; a fetched body longer than 1000 bytes is the first success and
stops the loop; an exception (`fetch = none`) or an undersized body moves on
to the next URL.  Returns the list of URLs for which a fetch was issued,
and the size of the accepted body, if any. -/
def tryUrls (fetch : String → Option Nat) : List String → List String × Option Nat
  | [] => ([], none)
  | u :: rest =>
    match fetch u with
    | some n =>
      if 1000 < n then ([u], some n)
      else
        let r := tryUrls fetch rest
        (u :: r.1, r.2)
    | none =>
      let r := tryUrls fetch rest
      (u :: r.1, r.2)

/-- `OpenLibraryPlugin.download_cover` (main.py lines 102-136): try the
candidate URLs in order; on the first valid body, write it to `save_path`
and return `true`.  Returns the success flag, the updated cache state and
the trace of fetched URLs. -/
def download_cover (fetch : String → Option Nat) (fs : FS)
    (cover_id : Option String) (save_path : String) (isbn : Option String) :
    Bool × FS × List String :=
  let r := tryUrls fetch (urls_to_try cover_id isbn)
  match r.2 with
  | some n => (true, FS.write fs save_path n, r.1)
  | none => (false, fs, r.1)

/-! ## Cache key and cover resolution
(`OpenLibraryPlugin.get_cover_image`, main.py lines 138-162) -/

/-- `cache_name = str(cover_id or isbn).replace("/", "_")` (main.py
line 143). -/
def cache_name (cover_id isbn : Option String) : String :=
  sanitize (pyStr (pyOr cover_id isbn))

/-- `cached_cover_path = os.path.join(cache_dir, f"{cache_name}.jpg")`
(main.py line 144). -/
def cached_cover_path (cover_id isbn : Option String) : String :=
  cache_dir ++ "/" ++ cache_name cover_id isbn ++ ".jpg"

/-- The cache-validity check of main.py lines 147-156: a file present and
larger than 1000 bytes is the valid cached cover and is returned; a present
but undersized file is removed and the lookup falls through to a miss. -/
def lookupValid (fs : FS) (p : String) : Option String × FS :=
  match FS.lookup fs p with
  | none => (none, fs)
  | some n => if 1000 < n then (some p, fs) else (none, FS.remove fs p)

/-- `OpenLibraryPlugin.get_cover_image` (main.py lines 138-162): the cover
resolver.  Returns the resolved icon path, the updated cache state and the
trace of fetched URLs. -/
def get_cover_image (fetch : String → Option Nat) (fs : FS)
    (cover_id isbn : Option String) : String × FS × List String :=
  if !optTruthy cover_id && !optTruthy isbn then (default_book_icon, fs, [])
  else
    let path := cached_cover_path cover_id isbn
    let lv := lookupValid fs path
    match lv.1 with
    | some p => (p, lv.2, [])
    | none =>
      let dl := download_cover fetch lv.2 cover_id path isbn
      if dl.1 then (path, dl.2.1, dl.2.2) else (default_book_icon, dl.2.1, dl.2.2)

/-! ## Cache eviction
(`OpenLibraryPlugin.cleanup_image_cache`, main.py lines 43-56) -/

/-- One directory entry seen by the eviction sweep: its name, whether
`os.path.isfile` holds, and its modification time (seconds). -/
structure CFile where
  name : String
  isFile : Bool
  mtime : Int
deriving DecidableEq, Repr

/-- `age_limit_seconds = 3 * 24 * 60 * 60` (main.py line 47). -/
def age_limit_seconds : Int := 3 * 24 * 60 * 60

/-- The `for filename in os.listdir(...)` loop of main.py lines 49-54,
run inside a single `try`/`except Exception: pass` (lines 48-56).
`fails` says whether stat-ing or removing a given file raises; a raised
exception propagates out of the loop, so the failing file and every file
after it are left as they are.  Returns the directory contents after the
sweep. -/
def cleanupLoop (now limit : Int) (fails : String → Bool) : List CFile → List CFile
  | [] => []
  | f :: rest =>
    if f.isFile then
      if fails f.name then f :: rest
      else if limit < now - f.mtime then cleanupLoop now limit fails rest
      else f :: cleanupLoop now limit fails rest
    else f :: cleanupLoop now limit fails rest

/-- `OpenLibraryPlugin.cleanup_image_cache` (main.py lines 43-56): no-op
when the cache directory is missing, otherwise the sweep loop with the
3-day age limit. -/
def cleanup_image_cache (isdir : Bool) (now : Int) (fails : String → Bool)
    (files : List CFile) : List CFile :=
  if isdir then cleanupLoop now age_limit_seconds fails files else files

/-! ## Search and query
(`OpenLibraryPlugin.search_openlibrary_api` / `process_book_data` / `query`,
main.py lines 58-100 and 164-215) -/

/-- One document of the search response (the fields main.py reads).
`cover_i` is the numeric cover id, carried as its decimal string. -/
structure Doc where
  key : Option String
  title : Option String
  author_name : List String
  cover_i : Option String
  cover_edition_key : Option String
  first_publish_year : Option Nat
  isbn : List String
deriving DecidableEq, Repr

/-- The `book_info` dictionary built per document (main.py lines 85-92). -/
structure Book where
  key : Option String
  title : String
  author_name : String
  cover_id : Option String
  first_publish_year : Option Nat
  isbn : Option String
deriving DecidableEq, Repr

/-- Lines 76-92 of main.py: pick the cover id (`cover_i or
cover_edition_key`, else `isbn_<first isbn>` when an ISBN exists) and the
display fields, taking the first author and first ISBN. -/
def parse_doc (d : Doc) : Book :=
  let cover0 := pyOr d.cover_i d.cover_edition_key
  let cover_id :=
    if !optTruthy cover0 && !d.isbn.isEmpty then
      match d.isbn with
      | i :: _ => some ("isbn_" ++ i)
      | [] => cover0
    else cover0
  { key := d.key
    title := d.title.getD "Unknown Title"
    author_name := match d.author_name with
      | [] => "Unknown Author"
      | a :: _ => a
    cover_id := cover_id
    first_publish_year := d.first_publish_year
    isbn := match d.isbn with
      | [] => none
      | i :: _ => some i }

/-- `OpenLibraryPlugin.search_openlibrary_api` (main.py lines 58-100): an
empty term after stripping short-circuits to `[]` before the network call;
otherwise one search request is issued (`oracle` returns the parsed
document list, `none` for any network or parse failure, which degrades to
`[]`), and the first five parsed books are returned.  The second component
counts search network calls. -/
def search_openlibrary_api (oracle : String → Option (List Doc))
    (search_term : String) : List Book × Nat :=
  let t := pyStrip search_term
  if t == "" then ([], 0)
  else
    match oracle t with
    | none => ([], 1)
    | some docs => ((docs.map parse_doc).take 5, 1)

/-- One display item of the result list (`Title`, `SubTitle`, `IcoPath`,
and the `JsonRPCAction` book key when present). -/
structure Item where
  Title : String
  SubTitle : String
  IcoPath : String
  actionKey : Option (Option String)
deriving DecidableEq, Repr

/-- `OpenLibraryPlugin.process_book_data` (main.py lines 164-183): resolve
the cover and build the display item (a falsy year is omitted from the
subtitle). -/
def process_book_data (fetch : String → Option Nat) (fs : FS) (b : Book) :
    Item × FS × List String :=
  let r := get_cover_image fetch fs b.cover_id b.isbn
  let yearPart := match b.first_publish_year with
    | some y => if y == 0 then "" else " (" ++ toString y ++ ")"
    | none => ""
  ({ Title := b.title
     SubTitle := "by " ++ b.author_name ++ yearPart
     IcoPath := r.1
     actionKey := some b.key }, r.2.1, r.2.2)

/-- The sequential per-book loop of main.py lines 199-206, threading the
cache state and accumulating the fetch traces. -/
def processAll (fetch : String → Option Nat) (fs : FS) :
    List Book → List Item × FS × List String
  | [] => ([], fs, [])
  | b :: rest =>
    let r := process_book_data fetch fs b
    let r2 := processAll fetch r.2.1 rest
    (r.1 :: r2.1, r2.2.1, r.2.2 ++ r2.2.2)

/-- The informational placeholder returned for the empty search term
(main.py lines 189-193). -/
def start_item : Item :=
  { Title := "OpenLibrary Book Search"
    SubTitle := "Start typing a book title to search..."
    IcoPath := app_icon
    actionKey := none }

/-- The placeholder returned when no result was produced
(main.py lines 209-213). -/
def no_results_item (search_term : String) : Item :=
  { Title := "No books found for '" ++ search_term ++ "'"
    SubTitle := "Try a different search term"
    IcoPath := app_icon
    actionKey := none }

/-- The outcome of one query: the display items, the final cache state,
the number of search network calls, and the trace of cover fetch URLs. -/
structure QueryOut where
  items : List Item
  fs : FS
  searchCalls : Nat
  coverFetches : List String
deriving DecidableEq, Repr

/-- `OpenLibraryPlugin.query` (main.py lines 185-215). -/
def query (oracle : String → Option (List Doc)) (fetch : String → Option Nat)
    (fs : FS) (search_term : String) : QueryOut :=
  if search_term == "" then
    { items := [start_item], fs := fs, searchCalls := 0, coverFetches := [] }
  else
    let s := search_openlibrary_api oracle search_term
    let p := processAll fetch fs s.1
    if p.1.isEmpty then
      { items := [no_results_item search_term], fs := p.2.1,
        searchCalls := s.2, coverFetches := p.2.2 }
    else
      { items := p.1, fs := p.2.1, searchCalls := s.2, coverFetches := p.2.2 }

/-! ## Helper lemmas -/

/-- With a fetch oracle that always fails, the download loop fetches every
listed URL, duplicates included. -/
theorem tryUrls_attempts_eq_of_allFail (fetch : String → Option Nat)
    (h : ∀ u, fetch u = none) (urls : List String) :
    (tryUrls fetch urls).1 = urls := by
  induction urls with
  | nil => rfl
  | cons u rest ih => simp [tryUrls, h u, ih]

/-- The trace of fetched URLs is an initial segment of the candidate list:
URLs are attempted in the listed order, stopping at the first success. -/
theorem tryUrls_attempts_order (fetch : String → Option Nat)
    (urls : List String) :
    ∃ rest, (tryUrls fetch urls).1 ++ rest = urls := by
  induction urls with
  | nil => exact ⟨[], rfl⟩
  | cons u us ih =>
    cases hf : fetch u with
    | none =>
      obtain ⟨t, ht⟩ := ih
      exact ⟨t, by simp [tryUrls, hf, ht]⟩
    | some n =>
      by_cases hn : 1000 < n
      · exact ⟨us, by simp [tryUrls, hf, hn]⟩
      · obtain ⟨t, ht⟩ := ih
        exact ⟨t, by simp [tryUrls, hf, hn, ht]⟩

/-- Removing a path from the cache state makes its lookup miss. -/
theorem lookup_remove (fs : FS) (p : String) :
    FS.lookup (FS.remove fs p) p = none := by
  induction fs with
  | nil => rfl
  | cons e rest ih =>
    rcases e with ⟨q, v⟩
    by_cases hp : q = p
    · have hq : FS.remove ((q, v) :: rest) p = FS.remove rest p := by
        simp [FS.remove, List.filter_cons, hp]
      rw [hq]
      exact ih
    · have h2 : (p == q) = false := by simp [Ne.symm hp]
      have hq : FS.remove ((q, v) :: rest) p = (q, v) :: FS.remove rest p := by
        simp [FS.remove, List.filter_cons, hp]
      rw [hq]
      show List.lookup p ((q, v) :: FS.remove rest p) = none
      simp only [List.lookup, h2]
      exact ih

/-! ## Claims -/

/-- C1: the claim that each URL in the candidate list is attempted at most
once even when it appears in more than one branch is FALSE.  For a record
whose only cover hint is the ISBN-derived tag `isbn_9780131103627` and
whose `isbn` field holds `9780131103627`, branches 2 and 3 of
`download_cover` both emit the ISBN-keyed URL, the loop does not
deduplicate, and when every fetch fails the URL is fetched twice. -/
theorem c1_counterexample :
    (tryUrls (fun _ => none)
        (urls_to_try (some "isbn_9780131103627") (some "9780131103627"))).1.count
      "https://covers.openlibrary.org/b/isbn/9780131103627-M.jpg" = 2 := by
  decide

/-- C1 (amended): the resolver attempts the candidate URLs in the listed
order, stopping at the first success — the trace of fetched URLs is an
initial segment of the list, and equals the whole list when every fetch
fails — but the list is not deduplicated, so a URL that appears in more
than one branch is attempted once per occurrence. -/
theorem c1_amended (cover_id isbn : Option String)
    (fetch : String → Option Nat) :
    (∃ rest, (tryUrls fetch (urls_to_try cover_id isbn)).1 ++ rest
        = urls_to_try cover_id isbn) ∧
    ((∀ u, fetch u = none) →
      (tryUrls fetch (urls_to_try cover_id isbn)).1
        = urls_to_try cover_id isbn) :=
  ⟨tryUrls_attempts_order fetch (urls_to_try cover_id isbn),
   fun h => tryUrls_attempts_eq_of_allFail fetch h (urls_to_try cover_id isbn)⟩

/-- Witness for C1 (amended) at the duplicate-URL record with an
all-failing network. -/
theorem c1_amended_witness :
    (tryUrls (fun _ => none)
        (urls_to_try (some "isbn_9780131103627") (some "9780131103627"))).1
      = urls_to_try (some "isbn_9780131103627") (some "9780131103627") :=
  (c1_amended (some "isbn_9780131103627") (some "9780131103627")
    (fun _ => none)).2 (fun _ => rfl)

/-- C4: for a record carrying both a truthy, non-`isbn_`-prefixed cover id
and a truthy ISBN, the candidate list is exactly the id's medium URL, then
the id's large URL, then the ISBN-keyed URL, and the download loop fetches
an initial segment of that list in order. -/
theorem c4_url_priority (cid isbn : String) (fetch : String → Option Nat)
    (h1 : cid ≠ "") (h2 : startsWithIsbn cid = false) (h3 : isbn ≠ "") :
    urls_to_try (some cid) (some isbn) =
      ["https://covers.openlibrary.org/b/id/" ++ cid ++ "-M.jpg",
       "https://covers.openlibrary.org/b/id/" ++ cid ++ "-L.jpg",
       "https://covers.openlibrary.org/b/isbn/" ++ isbn ++ "-M.jpg"] ∧
    ∃ rest, (tryUrls fetch (urls_to_try (some cid) (some isbn))).1 ++ rest
        = urls_to_try (some cid) (some isbn) := by
  constructor
  · simp [urls_to_try, optTruthy, pyStr, h1, h2, h3]
  · exact tryUrls_attempts_order fetch _

/-- Witness for C4 at cover id `12345` and ISBN `9780131103627`. -/
theorem c4_url_priority_witness :
    urls_to_try (some "12345") (some "9780131103627") =
      ["https://covers.openlibrary.org/b/id/12345-M.jpg",
       "https://covers.openlibrary.org/b/id/12345-L.jpg",
       "https://covers.openlibrary.org/b/isbn/9780131103627-M.jpg"] :=
  ((c4_url_priority "12345" "9780131103627" (fun _ => none)
    (by decide) (by decide) (by decide)).1).trans (by decide)

/-- C3: the cache key is a deterministic function of the effective
identifier `str(cover_id or isbn)` — records sharing the effective
identifier share the key — it contains no `/` character, it prefers the
truthy cover id and falls back to the ISBN field otherwise. -/
theorem c3_cache_key (c1 i1 c2 i2 : Option String)
    (h : pyStr (pyOr c1 i1) = pyStr (pyOr c2 i2)) :
    cache_name c1 i1 = cache_name c2 i2 ∧
    (∀ ch ∈ (cache_name c1 i1).data, ch ≠ '/') ∧
    (optTruthy c1 = true → cache_name c1 i1 = sanitize (pyStr c1)) ∧
    (optTruthy c1 = false → cache_name c1 i1 = sanitize (pyStr i1)) := by
  refine ⟨by simp [cache_name, h], ?_, ?_, ?_⟩
  · intro ch hch
    simp only [cache_name, sanitize, List.mem_map] at hch
    obtain ⟨c, _, rfl⟩ := hch
    by_cases hc : c = '/'
    · simp [hc]
    · simp [hc]
  · intro ht
    simp [cache_name, pyOr, ht]
  · intro ht
    simp [cache_name, pyOr, ht]

/-- Witness for C3: two records whose effective identifier is `a/b` share
the key, and the path separator is substituted. -/
theorem c3_cache_key_witness :
    cache_name (some "a/b") none = cache_name (some "a/b") (some "999") ∧
    cache_name (some "a/b") none = "a_b" :=
  ⟨(c3_cache_key (some "a/b") none (some "a/b") (some "999") rfl).1, by decide⟩

/-- With no failures, the sweep loop keeps exactly the entries that are not
expired files. -/
theorem cleanupLoop_noFail (now limit : Int) (files : List CFile) :
    cleanupLoop now limit (fun _ => false) files
      = files.filter (fun f => !(f.isFile && decide (limit < now - f.mtime))) := by
  induction files with
  | nil => rfl
  | cons f rest ih =>
    cases hf : f.isFile
    · simp [cleanupLoop, hf, List.filter_cons, ih]
    · by_cases he : limit < now - f.mtime
      · simp [cleanupLoop, hf, he, List.filter_cons, ih]
      · simp [cleanupLoop, hf, he, List.filter_cons, ih]

/-- C2: the claim that a failure on one file lets the scan continue over
the remaining files is FALSE: `cleanup_image_cache` wraps the whole
listing loop in a single `try`/`except`, so the first failure aborts the
sweep.  Here the file `old` is 4 days old — expired under the 3-day
limit — yet survives the sweep because stat/removal of the earlier file
`bad` failed. -/
theorem c2_counterexample :
    (⟨"old", true, 0⟩ : CFile) ∈
        cleanup_image_cache true (4 * 24 * 60 * 60) (fun n => n == "bad")
          [⟨"bad", true, 0⟩, ⟨"old", true, 0⟩] ∧
    age_limit_seconds < (4 * 24 * 60 * 60 : Int) - (0 : Int) := by
  decide

/-- C2 (amended): a failure while stat-ing or removing one file is
swallowed — the sweep itself never raises — but it aborts the scan: the
files before the first failing file are processed normally, while the
failing file and every file after it are left untouched. -/
theorem c2_amended (now : Int) (fails : String → Bool) (pre : List CFile)
    (f : CFile) (rest : List CFile)
    (hpre : ∀ g ∈ pre, fails g.name = false)
    (hf : f.isFile = true) (hfail : fails f.name = true) :
    cleanup_image_cache true now fails (pre ++ f :: rest)
      = cleanup_image_cache true now (fun _ => false) pre ++ (f :: rest) := by
  simp only [cleanup_image_cache, if_pos]
  induction pre with
  | nil => simp [cleanupLoop, hf, hfail]
  | cons g pres ih =>
    have hg : fails g.name = false := hpre g (by simp)
    have hrest : ∀ g' ∈ pres, fails g'.name = false :=
      fun g' h' => hpre g' (by simp [h'])
    cases hgf : g.isFile
    · simp [cleanupLoop, hgf, ih hrest]
    · by_cases he : age_limit_seconds < now - g.mtime
      · simp [cleanupLoop, hgf, hg, he, ih hrest]
      · simp [cleanupLoop, hgf, hg, he, ih hrest]

/-- Witness for C2 (amended): the fresh file before the failing one is
examined (and kept, being fresh); the failing file and the expired file
after it are untouched. -/
theorem c2_amended_witness :
    cleanup_image_cache true (4 * 24 * 60 * 60) (fun n => n == "bad")
        [⟨"fresh", true, 4 * 24 * 60 * 60⟩, ⟨"bad", true, 0⟩, ⟨"old", true, 0⟩]
      = [⟨"fresh", true, 4 * 24 * 60 * 60⟩, ⟨"bad", true, 0⟩,
         ⟨"old", true, 0⟩] :=
  (c2_amended (4 * 24 * 60 * 60) (fun n => n == "bad")
      [⟨"fresh", true, 4 * 24 * 60 * 60⟩] ⟨"bad", true, 0⟩ [⟨"old", true, 0⟩]
      (by decide) rfl (by decide)).trans (by decide)

/-- C9: a failure-free eviction sweep with the default 3-day age limit
keeps exactly the entries that are not expired files: an entry is in the
swept directory iff it was there and is not a file older than
`now - age_limit_seconds`; so every expired file is removed and every
other entry is untouched. -/
theorem c9_eviction (now : Int) (files : List CFile) :
    cleanup_image_cache true now (fun _ => false) files
      = files.filter
          (fun f => !(f.isFile && decide (age_limit_seconds < now - f.mtime))) ∧
    ∀ f, (f ∈ cleanup_image_cache true now (fun _ => false) files ↔
      f ∈ files ∧ ¬(f.isFile = true ∧ age_limit_seconds < now - f.mtime)) := by
  have h := cleanupLoop_noFail now age_limit_seconds files
  constructor
  · simpa [cleanup_image_cache] using h
  · intro f
    simp only [cleanup_image_cache, if_pos, h, List.mem_filter]
    cases hif : f.isFile <;> simp [hif]

/-- C5: the cache-validity lookup reports the entry present iff the file
exists with size strictly above 1000 bytes; a present but undersized file
is deleted as a side effect and reported absent. -/
theorem c5_lookup_valid (fs : FS) (p : String) :
    ((lookupValid fs p).1 = some p ↔
      ∃ n, FS.lookup fs p = some n ∧ 1000 < n) ∧
    ∀ n, FS.lookup fs p = some n → n ≤ 1000 →
      lookupValid fs p = (none, FS.remove fs p) := by
  constructor
  · constructor
    · intro h
      cases hl : FS.lookup fs p with
      | none => simp [lookupValid, hl] at h
      | some n =>
        by_cases hn : 1000 < n
        · exact ⟨n, rfl, hn⟩
        · simp [lookupValid, hl, hn] at h
    · rintro ⟨n, hl, hn⟩
      simp [lookupValid, hl, hn]
  · intro n hl hn
    have hn2 : ¬(1000 < n) := Nat.not_lt.mpr hn
    simp [lookupValid, hl, hn2]

/-- Witness for C5: a 500-byte cached file is reported absent and
deleted. -/
theorem c5_lookup_valid_witness :
    (FS.lookup [("plugin/img_cache/12345.jpg", 500)]
        "plugin/img_cache/12345.jpg" = some 500) ∧
    lookupValid [("plugin/img_cache/12345.jpg", 500)]
        "plugin/img_cache/12345.jpg" = (none, []) :=
  ⟨by decide,
   (c5_lookup_valid [("plugin/img_cache/12345.jpg", 500)]
      "plugin/img_cache/12345.jpg").2 500 (by decide) (by decide)⟩

/-- C7: for a record with neither a truthy cover hint nor a truthy ISBN,
the resolver returns the default-icon sentinel immediately, leaves the
cache state untouched and fetches nothing. -/
theorem c7_no_hint (fetch : String → Option Nat) (fs : FS)
    (cover_id isbn : Option String)
    (h1 : optTruthy cover_id = false) (h2 : optTruthy isbn = false) :
    get_cover_image fetch fs cover_id isbn = (default_book_icon, fs, []) := by
  simp [get_cover_image, h1, h2]

/-- Witness for C7 at a record with no cover id and no ISBN, over a
non-empty cache. -/
theorem c7_no_hint_witness :
    get_cover_image (fun _ => none) [("plugin/img_cache/x.jpg", 5000)]
        none none
      = (default_book_icon, [("plugin/img_cache/x.jpg", 5000)], []) :=
  c7_no_hint (fun _ => none) [("plugin/img_cache/x.jpg", 5000)] none none
    rfl rfl

/-- When at least one hint is truthy and the cache holds a valid file
under the record's key, the resolver returns that path without touching
the network or the cache state. -/
theorem gci_hit (fetch : String → Option Nat) (fs : FS)
    (cover_id isbn : Option String) (n : Nat)
    (hg : (!optTruthy cover_id && !optTruthy isbn) = false)
    (hl : FS.lookup fs (cached_cover_path cover_id isbn) = some n)
    (hn : 1000 < n) :
    get_cover_image fetch fs cover_id isbn
      = (cached_cover_path cover_id isbn, fs, []) := by
  simp [get_cover_image, hg, lookupValid, hl, hn]

/-- With at least one truthy hint, the resolver either returns the cache
path, or leaves no entry under the cache path (the miss case with every
download failing). -/
theorem gci_fst_cases (fetch : String → Option Nat) (fs : FS)
    (cover_id isbn : Option String)
    (hg : (!optTruthy cover_id && !optTruthy isbn) = false) :
    (get_cover_image fetch fs cover_id isbn).1
        = cached_cover_path cover_id isbn ∨
      FS.lookup (get_cover_image fetch fs cover_id isbn).2.1
        (cached_cover_path cover_id isbn) = none := by
  cases hl : FS.lookup fs (cached_cover_path cover_id isbn) with
  | none =>
    cases hd : (tryUrls fetch (urls_to_try cover_id isbn)).2 with
    | none =>
      right
      simp [get_cover_image, hg, lookupValid, hl, download_cover, hd]
    | some k =>
      left
      simp [get_cover_image, hg, lookupValid, hl, download_cover, hd]
  | some m =>
    by_cases hm : 1000 < m
    · left
      simp [get_cover_image, hg, lookupValid, hl, hm]
    · cases hd : (tryUrls fetch (urls_to_try cover_id isbn)).2 with
      | none =>
        right
        simpa [get_cover_image, hg, lookupValid, hl, hm, download_cover, hd]
          using lookup_remove fs (cached_cover_path cover_id isbn)
      | some k =>
        left
        simp [get_cover_image, hg, lookupValid, hl, hm, download_cover, hd]

/-- C6: resolution is idempotent under a warm cache.  When the first call
leaves a valid cached file under the record's key, a second call returns
the same path as the first, leaves the cache state unchanged and fetches
nothing. -/
theorem c6_idempotent (fetch : String → Option Nat) (fs : FS)
    (cover_id isbn : Option String)
    (h : ∃ n, FS.lookup ((get_cover_image fetch fs cover_id isbn).2.1)
          (cached_cover_path cover_id isbn) = some n ∧ 1000 < n) :
    get_cover_image fetch ((get_cover_image fetch fs cover_id isbn).2.1)
        cover_id isbn
      = ((get_cover_image fetch fs cover_id isbn).1,
         (get_cover_image fetch fs cover_id isbn).2.1, []) := by
  obtain ⟨n, hn, hn1000⟩ := h
  cases hg : (!optTruthy cover_id && !optTruthy isbn) with
  | true =>
    have h1 : get_cover_image fetch fs cover_id isbn
        = (default_book_icon, fs, []) := by
      simp [get_cover_image, hg]
    rw [h1]
    simpa using h1
  | false =>
    have hsecond := gci_hit fetch
      ((get_cover_image fetch fs cover_id isbn).2.1) cover_id isbn n hg hn
      hn1000
    rw [hsecond]
    rcases gci_fst_cases fetch fs cover_id isbn hg with h1 | h2
    · rw [h1]
    · rw [h2] at hn
      simp at hn

/-- Witness for C6: a warm cache holding a 5000-byte cover for cover id
`12345`; both calls return the cached path and the second call fetches
nothing. -/
theorem c6_idempotent_witness :
    get_cover_image (fun _ => none)
        ((get_cover_image (fun _ => none)
            [("plugin/img_cache/12345.jpg", 5000)] (some "12345") none).2.1)
        (some "12345") none
      = ((get_cover_image (fun _ => none)
            [("plugin/img_cache/12345.jpg", 5000)] (some "12345") none).1,
         (get_cover_image (fun _ => none)
            [("plugin/img_cache/12345.jpg", 5000)] (some "12345") none).2.1,
         []) :=
  c6_idempotent (fun _ => none) [("plugin/img_cache/12345.jpg", 5000)]
    (some "12345") none ⟨5000, by decide, by decide⟩

/-- C8: for a search term that strips to the empty string (empty or
whitespace-only), `query` returns exactly one placeholder item, issues no
search call, fetches no cover and leaves the cache untouched. -/
theorem c8_blank_query (oracle : String → Option (List Doc))
    (fetch : String → Option Nat) (fs : FS) (search_term : String)
    (h : pyStrip search_term = "") :
    ((query oracle fetch fs search_term).items = [start_item] ∨
      (query oracle fetch fs search_term).items
        = [no_results_item search_term]) ∧
    (query oracle fetch fs search_term).items.length = 1 ∧
    (query oracle fetch fs search_term).searchCalls = 0 ∧
    (query oracle fetch fs search_term).coverFetches = [] ∧
    (query oracle fetch fs search_term).fs = fs := by
  by_cases ht : search_term = ""
  · subst ht
    simp [query]
  · have hq : query oracle fetch fs search_term =
        { items := [no_results_item search_term], fs := fs,
          searchCalls := 0, coverFetches := [] } := by
      simp [query, ht, search_openlibrary_api, h, processAll]
    rw [hq]
    simp

/-- Witness for C8 at the whitespace-only term `" "`. -/
theorem c8_blank_query_witness :
    pyStrip " " = "" ∧
    (query (fun _ => none) (fun _ => none) [] " ").items.length = 1 ∧
    (query (fun _ => none) (fun _ => none) [] " ").searchCalls = 0 ∧
    (query (fun _ => none) (fun _ => none) [] " ").coverFetches = [] :=
  ⟨by decide,
   (c8_blank_query (fun _ => none) (fun _ => none) [] " " (by decide)).2.1,
   (c8_blank_query (fun _ => none) (fun _ => none) [] " " (by decide)).2.2.1,
   (c8_blank_query (fun _ => none) (fun _ => none) [] " " (by decide)).2.2.2.1⟩

/-- C10: only the exactly-empty term takes the informational branch.  For
a non-empty term that strips to empty, `query` proceeds past the empty
check, the search client returns an empty list without a network call, and
the single item is the "No books found" placeholder carrying the original
term — a different item from the informational placeholder. -/
theorem c10_whitespace_query (oracle : String → Option (List Doc))
    (fetch : String → Option Nat) (fs : FS) (search_term : String)
    (h1 : search_term ≠ "") (h2 : pyStrip search_term = "") :
    query oracle fetch fs search_term
      = { items := [no_results_item search_term], fs := fs,
          searchCalls := 0, coverFetches := [] } ∧
    (no_results_item search_term).Title
      = "No books found for '" ++ search_term ++ "'" ∧
    no_results_item search_term ≠ start_item := by
  refine ⟨?_, rfl, ?_⟩
  · simp [query, h1, search_openlibrary_api, h2, processAll]
  · intro hcontra
    have h3 : ("Try a different search term" : String)
        = "Start typing a book title to search..." :=
      congrArg Item.SubTitle hcontra
    exact absurd h3 (by decide)

/-- Witness for C10 at the term `" "` (non-empty, whitespace-only). -/
theorem c10_whitespace_query_witness :
    query (fun _ => none) (fun _ => none) [] " "
      = { items := [no_results_item " "], fs := [],
          searchCalls := 0, coverFetches := [] } :=
  (c10_whitespace_query (fun _ => none) (fun _ => none) [] " "
    (by decide) (by decide)).1

end FindMyBook
